import Mathlib

/-!
Verification of the AI editor workflow controller
(`src/machines/editorMachine.ts`) and its generation service
(`src/services/aiService.ts`), embedded shallowly in Lean.

The XState machine is embedded as a pure transition function `step` on a
state name (`MState`) and a context record (`EditorContext`); event
sequences are processed by `run` (a left fold of `step`).  The
callback-based generation actor's local `isCancelled` flag is embedded as
`sessionFilter`; the `AIService` class (abort-controller lifecycle) as
`AIServiceState` with `AIService.cancel` / `AIService.continueWriting`;
and the character-streaming loop of `callGeminiAPI` as `geminiStream`.
-/

/-- Mirrors the `EditorContext` interface of `editorMachine.ts`:
`content`, `baseContent`, `suggestedContent`, `error : string | null`
(as `Option String`), and the `isPartialSuggestion` flag. -/
structure EditorContext where
  content : String
  baseContent : String
  suggestedContent : String
  error : Option String
  isPartialSuggestion : Bool
deriving Repr, DecidableEq

/-- The four state nodes of the machine: `idle` (initial), `generating`,
`reviewingSuggestion`, `error`. -/
inductive MState where
  | idle
  | generating
  | reviewingSuggestion
  | error
deriving Repr, DecidableEq, BEq

/-- Mirrors the `EditorEvent` discriminated union of `editorMachine.ts`. -/
inductive EditorEvent where
  | UPDATE_CONTENT (content : String)
  | CONTINUE_WRITING
  | STREAM_CHUNK (chunk : String)
  | GENERATION_DONE (generatedText : String)
  | GENERATION_ERROR (err : String)
  | CANCEL
  | ACCEPT_SUGGESTION
  | REJECT_SUGGESTION
  | REGENERATE
  | RETRY
  | DISMISS_ERROR
deriving Repr, DecidableEq

/-- Mirrors the `initialContext` constant: all strings empty, `error`
null, `isPartialSuggestion` false. -/
def initialContext : EditorContext :=
  { content := ""
    baseContent := ""
    suggestedContent := ""
    error := none
    isPartialSuggestion := false }

/-- The ECMAScript whitespace class stripped by
`String.prototype.trim()`: WhiteSpace (TAB, VT, FF, SP, NBSP, ZWNBSP
and the Unicode Space_Separator category) together with LineTerminator
(LF, CR, LS, PS). -/
def jsIsWhitespace (c : Char) : Bool :=
  c = '\t' || c = '\x0B' || c = '\x0C' || c = ' ' || c = '\xA0' ||
    c = '\uFEFF' || c = '\u1680' ||
    (0x2000 ≤ c.val && c.val ≤ 0x200A) ||
    c = '\u202F' || c = '\u205F' || c = '\u3000' ||
    c = '\n' || c = '\r' || c = '\u2028' || c = '\u2029'

/-- JavaScript `String.prototype.trim()`: drops leading and trailing
ECMAScript whitespace.  (Written over the character list so that the
kernel can evaluate it on literals.) -/
def jsTrim (s : String) : String :=
  String.mk
    (((s.data.dropWhile jsIsWhitespace).reverse.dropWhile
        jsIsWhitespace).reverse)

/-- The transition function of `editorMachine`.  Each arm transcribes one
entry of the `states` table: the source state node, the handled event, the
guard (`content.trim().length > 0` where present) and the `assign`
actions.  An event with no handler in the current state leaves state and
context unchanged (XState default), as does a handled event whose guard
fails. -/
def step (s : MState) (ctx : EditorContext) (e : EditorEvent) :
    MState × EditorContext :=
  match s, e with
  | .idle, .UPDATE_CONTENT t => (.idle, { ctx with content := t })
  | .idle, .CONTINUE_WRITING =>
      if (jsTrim ctx.content).length > 0 then
        (.generating,
          { ctx with
              baseContent := ctx.content
              suggestedContent := ""
              error := none
              isPartialSuggestion := false })
      else (.idle, ctx)
  | .generating, .STREAM_CHUNK c =>
      (.generating,
        { ctx with suggestedContent := ctx.suggestedContent ++ c })
  | .generating, .GENERATION_DONE t =>
      (.reviewingSuggestion,
        { ctx with suggestedContent := t, isPartialSuggestion := false })
  | .generating, .GENERATION_ERROR m =>
      (.error, { ctx with error := some m, suggestedContent := "" })
  | .generating, .CANCEL =>
      (.reviewingSuggestion, { ctx with isPartialSuggestion := true })
  | .reviewingSuggestion, .ACCEPT_SUGGESTION =>
      (.idle,
        { ctx with
            content := ctx.baseContent ++ ctx.suggestedContent
            suggestedContent := ""
            baseContent := ""
            isPartialSuggestion := false })
  | .reviewingSuggestion, .REJECT_SUGGESTION =>
      (.idle,
        { ctx with
            content := ctx.baseContent
            suggestedContent := ""
            baseContent := ""
            isPartialSuggestion := false })
  | .reviewingSuggestion, .REGENERATE =>
      (.generating,
        { ctx with
            suggestedContent := ""
            error := none
            isPartialSuggestion := false })
  | .error, .RETRY =>
      if (jsTrim ctx.content).length > 0 then
        (.generating,
          { ctx with
              baseContent := ctx.content
              suggestedContent := ""
              error := none
              isPartialSuggestion := false })
      else (.error, ctx)
  | .error, .DISMISS_ERROR =>
      (.idle,
        { ctx with
            error := none
            suggestedContent := ""
            isPartialSuggestion := false })
  | .error, .UPDATE_CONTENT t =>
      (.idle,
        { ctx with
            content := t
            error := none
            isPartialSuggestion := false })
  | .error, .CONTINUE_WRITING =>
      if (jsTrim ctx.content).length > 0 then
        (.generating,
          { ctx with
              baseContent := ctx.content
              suggestedContent := ""
              error := none
              isPartialSuggestion := false })
      else (.error, ctx)
  | s, _ => (s, ctx)

/-- Process a sequence of events from a configuration, one at a time
(single-threaded event queue). -/
def run (p : MState × EditorContext) (evs : List EditorEvent) :
    MState × EditorContext :=
  evs.foldl (fun q e => step q.1 q.2 e) p

/-- Whether the `(state, event)` pair has an entry in the machine's
transition table (regardless of guards).  Transcribed from the `on`
blocks of each state node of `editorMachine.ts`. -/
def handled (s : MState) (e : EditorEvent) : Bool :=
  match s, e with
  | .idle, .UPDATE_CONTENT _ => true
  | .idle, .CONTINUE_WRITING => true
  | .generating, .STREAM_CHUNK _ => true
  | .generating, .GENERATION_DONE _ => true
  | .generating, .GENERATION_ERROR _ => true
  | .generating, .CANCEL => true
  | .reviewingSuggestion, .ACCEPT_SUGGESTION => true
  | .reviewingSuggestion, .REJECT_SUGGESTION => true
  | .reviewingSuggestion, .REGENERATE => true
  | .error, .RETRY => true
  | .error, .DISMISS_ERROR => true
  | .error, .UPDATE_CONTENT _ => true
  | .error, .CONTINUE_WRITING => true
  | _, _ => false

/-- Whether processing the event creates a fresh generation actor:
XState invokes `createAIGenerationActor` on entry to the `generating`
state node, so a session starts exactly when the transition enters
`generating` from a different node. -/
def startsGeneration (s : MState) (ctx : EditorContext)
    (e : EditorEvent) : Bool :=
  (step s ctx e).1 == MState.generating && !(s == MState.generating)

/-- The generation actor's local `isCancelled` flag check: each of the
`onStream` / `onComplete` / `onError` callbacks in
`createAIGenerationActor` forwards its event with `sendBack` only when
`!isCancelled`; once cancelled, nothing is forwarded. -/
def sessionFilter (isCancelled : Bool) (e : EditorEvent) :
    Option EditorEvent :=
  if isCancelled then none else some e

/-- The actor's `receive` handler: a `CANCEL` from the parent sets the
local `isCancelled` flag; every other message leaves it unchanged. -/
def sessionReceive (isCancelled : Bool) (e : EditorEvent) : Bool :=
  match e with
  | .CANCEL => true
  | _ => isCancelled

/-- State of the `AIService` class: which abort controller (identified
by a serial number) is current, which controllers have been aborted, and
the next fresh serial number. -/
structure AIServiceState where
  current : Option Nat
  aborted : List Nat
  nextId : Nat
deriving Repr, DecidableEq

namespace AIService

/-- `AIService.cancel()`: aborts the current controller (if any) and
clears it.  Idempotent. -/
def cancel (s : AIServiceState) : AIServiceState :=
  match s.current with
  | some i => { s with current := none, aborted := i :: s.aborted }
  | none => { s with current := none }

/-- `AIService.continueWriting()`: first cancels any existing request
(`this.cancel()`), then installs a fresh `AbortController`.  Returns the
new service state and the identifier of the new session. -/
def continueWriting (s : AIServiceState) : AIServiceState × Nat :=
  let s1 := cancel s
  ({ current := some s1.nextId
     aborted := s1.aborted
     nextId := s1.nextId + 1 }, s1.nextId)

end AIService

/-- Whether a callback of session `i` still reaches its consumer:
`callGeminiAPI` checks `signal.aborted` before every `onStream` call and
before `onComplete` / `onError`, returning silently once the session's
controller has been aborted. -/
def sessionEmits (s : AIServiceState) (i : Nat) : Bool :=
  !(s.aborted.contains i)

/-- The character-streaming loop of `callGeminiAPI`: walks
`textToStream`, appending each character to `fullText` and emitting it
through `onStream`; returns the list of emitted fragments in order and
the `fullText` finally passed to `onComplete`. -/
def geminiStream (textToStream : List Char) : List String × String :=
  textToStream.foldl
    (fun acc c => (acc.1 ++ [String.mk [c]], acc.2 ++ String.mk [c]))
    ([], "")

/-- In-order concatenation of a list of fragments. -/
def joinAll (l : List String) : String :=
  l.foldl (fun a b => a ++ b) ""

/-! ## Helper lemmas -/

/-- Running a concatenated event list processes the first part, then the
second. -/
theorem run_append (p : MState × EditorContext)
    (a b : List EditorEvent) : run p (a ++ b) = run (run p a) b :=
  List.foldl_append _ _ _ _

/-- While in `generating`, a sequence of `STREAM_CHUNK` events appends
each payload in order to `suggestedContent` and changes nothing else. -/
theorem run_chunks (cs : List String) (ctx : EditorContext) :
    run (.generating, ctx) (cs.map .STREAM_CHUNK) =
      (.generating,
        { ctx with
            suggestedContent :=
              cs.foldl (fun a b => a ++ b) ctx.suggestedContent }) := by
  induction cs generalizing ctx with
  | nil => rfl
  | cons c cs ih =>
      show run (.generating,
          { ctx with suggestedContent := ctx.suggestedContent ++ c })
          (cs.map .STREAM_CHUNK) = _
      rw [ih]
      rfl

/-- Invariant of the `callGeminiAPI` streaming loop: the accumulated
`fullText` always equals the concatenation of the fragments emitted so
far. -/
theorem geminiStream_inv (l : List Char) (acc : List String × String)
    (h : acc.2 = joinAll acc.1) :
    (l.foldl
        (fun acc c =>
          (acc.1 ++ [String.mk [c]], acc.2 ++ String.mk [c])) acc).2 =
      joinAll
        ((l.foldl
            (fun acc c =>
              (acc.1 ++ [String.mk [c]], acc.2 ++ String.mk [c]))
            acc).1) := by
  induction l generalizing acc with
  | nil => exact h
  | cons c l ih =>
      apply ih
      simp [joinAll, List.foldl_append, h]

/-- The `fullText` passed to `onComplete` equals the in-order
concatenation of the fragments passed to `onStream`. -/
theorem geminiStream_full_eq_join (l : List Char) :
    (geminiStream l).2 = joinAll (geminiStream l).1 :=
  geminiStream_inv l ([], "") rfl

/-- The invariant that `error` can be non-null only in the `error`
state. -/
def errOnlyInError (p : MState × EditorContext) : Prop :=
  p.1 = MState.error ∨ p.2.error = none

/-- Every single transition preserves `errOnlyInError`. -/
theorem step_preserves_errInv (s : MState) (ctx : EditorContext)
    (e : EditorEvent) (h : errOnlyInError (s, ctx)) :
    errOnlyInError (step s ctx e) := by
  cases s <;> cases e <;>
    simp only [step, errOnlyInError] at h ⊢ <;>
    first
      | (split <;> simp_all)
      | simp_all

/-- `errOnlyInError` is preserved by any event sequence. -/
theorem run_errInv (evs : List EditorEvent) (p : MState × EditorContext)
    (h : errOnlyInError p) : errOnlyInError (run p evs) := by
  induction evs generalizing p with
  | nil => exact h
  | cons e evs ih => exact ih _ (step_preserves_errInv _ _ _ h)

/-! ## Claims -/

/-- Claim C1: from `reviewingSuggestion`, `ACCEPT_SUGGESTION` moves to
`idle` with `content = baseContent ++ suggestedContent`, clears
`baseContent` and `suggestedContent`, and resets `isPartialSuggestion`
to false. -/
theorem accept_exact (ctx : EditorContext) :
    step .reviewingSuggestion ctx .ACCEPT_SUGGESTION =
      (.idle,
        { content := ctx.baseContent ++ ctx.suggestedContent
          baseContent := ""
          suggestedContent := ""
          error := ctx.error
          isPartialSuggestion := false }) := rfl

/-- Claim C5: from `reviewingSuggestion`, `REJECT_SUGGESTION` moves to
`idle` with `content = baseContent`, discarding `suggestedContent`
whatever it holds, clearing both string fields and the partial flag. -/
theorem reject_exact (ctx : EditorContext) :
    step .reviewingSuggestion ctx .REJECT_SUGGESTION =
      (.idle,
        { content := ctx.baseContent
          baseContent := ""
          suggestedContent := ""
          error := ctx.error
          isPartialSuggestion := false }) := rfl

/-- Claim C6: `CONTINUE_WRITING` in `idle` with whitespace-only content
fails the guard: the machine stays in `idle`, the context is unchanged,
and no generation session is started. -/
theorem continue_writing_guard_rejects (ctx : EditorContext)
    (h : jsTrim ctx.content = "") :
    step .idle ctx .CONTINUE_WRITING = (.idle, ctx) ∧
      startsGeneration .idle ctx .CONTINUE_WRITING = false := by
  have hlen : ¬ (jsTrim ctx.content).length > 0 := by simp [h]
  exact ⟨by simp [step, hlen], by simp [startsGeneration, step, hlen]⟩

/-- Witness for C6 at the spec's Scenario C input `content = "   "` and
at a vertical-tab content, whitespace to JavaScript but not to
`Char.isWhitespace`. -/
theorem continue_writing_guard_rejects_witness :
    jsTrim "   " = "" ∧
      step .idle ⟨"   ", "", "", none, false⟩ .CONTINUE_WRITING =
        (.idle, ⟨"   ", "", "", none, false⟩) ∧
      startsGeneration .idle ⟨"   ", "", "", none, false⟩
          .CONTINUE_WRITING = false ∧
      jsTrim "\x0B" = "" ∧
      step .idle ⟨"\x0B", "", "", none, false⟩ .CONTINUE_WRITING =
        (.idle, ⟨"\x0B", "", "", none, false⟩) ∧
      startsGeneration .idle ⟨"\x0B", "", "", none, false⟩
          .CONTINUE_WRITING = false :=
  ⟨by decide,
   (continue_writing_guard_rejects ⟨"   ", "", "", none, false⟩
      (by decide)).1,
   (continue_writing_guard_rejects ⟨"   ", "", "", none, false⟩
      (by decide)).2,
   by decide,
   (continue_writing_guard_rejects ⟨"\x0B", "", "", none, false⟩
      (by decide)).1,
   (continue_writing_guard_rejects ⟨"\x0B", "", "", none, false⟩
      (by decide)).2⟩

/-- Claim C8: from every state of the machine there is a finite event
sequence leading back to `idle`; no state is a trap. -/
theorem always_reaches_idle (s : MState) (ctx : EditorContext) :
    ∃ evs : List EditorEvent, (run (s, ctx) evs).1 = .idle := by
  cases s with
  | idle => exact ⟨[], rfl⟩
  | generating => exact ⟨[.CANCEL, .REJECT_SUGGESTION], rfl⟩
  | reviewingSuggestion => exact ⟨[.REJECT_SUGGESTION], rfl⟩
  | error => exact ⟨[.DISMISS_ERROR], rfl⟩

/-- Claim C3: after a cancel, late session events are doubly inert: the
`reviewingSuggestion` node handles none of `STREAM_CHUNK`,
`GENERATION_DONE`, `GENERATION_ERROR` (state and context unchanged), the
actor's `receive` handler sets `isCancelled` on `CANCEL`, and with
`isCancelled` set the actor forwards none of those callbacks. -/
theorem post_cancel_silence (ctx : EditorContext) (c t m : String) :
    step .generating ctx .CANCEL =
        (.reviewingSuggestion, { ctx with isPartialSuggestion := true }) ∧
      step .reviewingSuggestion ctx (.STREAM_CHUNK c) =
        (.reviewingSuggestion, ctx) ∧
      step .reviewingSuggestion ctx (.GENERATION_DONE t) =
        (.reviewingSuggestion, ctx) ∧
      step .reviewingSuggestion ctx (.GENERATION_ERROR m) =
        (.reviewingSuggestion, ctx) ∧
      sessionReceive false .CANCEL = true ∧
      sessionFilter true (.STREAM_CHUNK c) = none ∧
      sessionFilter true (.GENERATION_DONE t) = none ∧
      sessionFilter true (.GENERATION_ERROR m) = none :=
  ⟨rfl, rfl, rfl, rfl, rfl, rfl, rfl, rfl⟩

/-- Claim C2: starting from `idle` with non-blank content, the sequence
`CONTINUE_WRITING`, then any chunks `c1 … cn`, then `CANCEL` ends in
`reviewingSuggestion` with `suggestedContent` equal to the in-order
concatenation `c1 ++ … ++ cn` (untouched by the cancel action) and
`isPartialSuggestion = true`. -/
theorem cancel_preserves_chunks (ctx : EditorContext) (cs : List String)
    (h : (jsTrim ctx.content).length > 0) :
    run (.idle, ctx)
        (.CONTINUE_WRITING :: (cs.map .STREAM_CHUNK ++ [.CANCEL])) =
      (.reviewingSuggestion,
        { content := ctx.content
          baseContent := ctx.content
          suggestedContent := joinAll cs
          error := none
          isPartialSuggestion := true }) := by
  have hcw : step .idle ctx .CONTINUE_WRITING =
      (.generating,
        { content := ctx.content
          baseContent := ctx.content
          suggestedContent := ""
          error := none
          isPartialSuggestion := false }) := by
    simp [step, h]
  show run (step .idle ctx .CONTINUE_WRITING)
      (cs.map .STREAM_CHUNK ++ [.CANCEL]) = _
  rw [hcw, run_append, run_chunks]
  rfl

/-- Witness for C2 at `content = "hi"` with chunks `"a"`, `"b"`. -/
theorem cancel_preserves_chunks_witness :
    (jsTrim "hi").length > 0 ∧
      run (.idle, ⟨"hi", "", "", none, false⟩)
          (.CONTINUE_WRITING ::
            (["a", "b"].map EditorEvent.STREAM_CHUNK ++ [.CANCEL])) =
        (.reviewingSuggestion, ⟨"hi", "hi", joinAll ["a", "b"], none, true⟩) :=
  ⟨by decide,
   cancel_preserves_chunks ⟨"hi", "", "", none, false⟩ ["a", "b"]
     (by decide)⟩

/-- Claim C7: in every configuration reachable from the initial one,
`error` is non-null only in the `error` state; moreover every transition
that leaves the `error` state (`DISMISS_ERROR`, `UPDATE_CONTENT`, and —
when the guard passes — `RETRY` and `CONTINUE_WRITING`) resets `error`
to null. -/
theorem error_only_in_error_state (evs : List EditorEvent)
    (ctx : EditorContext) (t : String) :
    ((run (.idle, initialContext) evs).1 = MState.error ∨
        (run (.idle, initialContext) evs).2.error = none) ∧
      (step .error ctx .DISMISS_ERROR).2.error = none ∧
      (step .error ctx (.UPDATE_CONTENT t)).2.error = none ∧
      ((jsTrim ctx.content).length > 0 →
        (step .error ctx .RETRY).2.error = none ∧
          (step .error ctx .CONTINUE_WRITING).2.error = none) := by
  refine ⟨run_errInv evs _ (Or.inr rfl), rfl, rfl, fun h => ⟨?_, ?_⟩⟩ <;>
    simp [step, h]

/-- Witness for C7: empty trace, and a concrete error-state context. -/
theorem error_only_in_error_state_witness :
    (jsTrim "x").length > 0 ∧
      ((run (.idle, initialContext) []).1 = MState.error ∨
        (run (.idle, initialContext) []).2.error = none) ∧
      (step .error ⟨"x", "", "", some "boom", false⟩ .RETRY).2.error =
        none :=
  ⟨by decide,
   (error_only_in_error_state [] ⟨"x", "", "", some "boom", false⟩ "t").1,
   ((error_only_in_error_state [] ⟨"x", "", "", some "boom", false⟩
        "t").2.2.2 (by decide)).1⟩

/-- Claim C9: for a generation that runs to completion, the `fullText`
handed to `onComplete` equals the in-order concatenation of the
`onStream` fragments, so the wholesale replacement of
`suggestedContent` on `GENERATION_DONE` leaves it equal to the value
already accumulated from the chunks (only `isPartialSuggestion` is
reset). -/
theorem done_matches_accumulated (l : List Char) (ctx : EditorContext)
    (h : ctx.suggestedContent = "") :
    (geminiStream l).2 = joinAll (geminiStream l).1 ∧
      run (.generating, ctx)
          ((geminiStream l).1.map .STREAM_CHUNK ++
            [.GENERATION_DONE (geminiStream l).2]) =
        (.reviewingSuggestion,
          { (run (.generating, ctx)
                ((geminiStream l).1.map .STREAM_CHUNK)).2 with
              isPartialSuggestion := false }) := by
  have hfull := geminiStream_full_eq_join l
  refine ⟨hfull, ?_⟩
  rw [run_append, run_chunks]
  simp only [run, List.foldl, step]
  rw [hfull]
  simp [joinAll, h]

/-- Witness for C9 on the three-character stream `['a','b','c']` with a
fresh generating context. -/
theorem done_matches_accumulated_witness :
    (⟨"s", "s", "", none, false⟩ : EditorContext).suggestedContent =
        "" ∧
      (geminiStream ['a', 'b', 'c']).2 =
        joinAll (geminiStream ['a', 'b', 'c']).1 ∧
      run (.generating, ⟨"s", "s", "", none, false⟩)
          ((geminiStream ['a', 'b', 'c']).1.map .STREAM_CHUNK ++
            [.GENERATION_DONE (geminiStream ['a', 'b', 'c']).2]) =
        (.reviewingSuggestion,
          { (run (.generating, ⟨"s", "s", "", none, false⟩)
                ((geminiStream ['a', 'b', 'c']).1.map
                  .STREAM_CHUNK)).2 with
              isPartialSuggestion := false }) :=
  ⟨rfl,
   (done_matches_accumulated ['a', 'b', 'c'] ⟨"s", "s", "", none, false⟩
      rfl).1,
   (done_matches_accumulated ['a', 'b', 'c'] ⟨"s", "s", "", none, false⟩
      rfl).2⟩

/-- Claim C4: `AIService.continueWriting` cancels the previously active
session before installing the new controller, so the old session's
callbacks are filtered by the aborted-signal check (`sessionEmits` is
false for it) while the new session, with a fresh identifier distinct
from the old one, is current and does emit. -/
theorem session_exclusivity (s : AIServiceState) (j : Nat)
    (hcur : s.current = some j) (hj : j < s.nextId)
    (hab : ∀ i ∈ s.aborted, i < s.nextId) :
    (AIService.continueWriting s).1.aborted = j :: s.aborted ∧
      sessionEmits (AIService.continueWriting s).1 j = false ∧
      (AIService.continueWriting s).1.current =
        some (AIService.continueWriting s).2 ∧
      (AIService.continueWriting s).2 ≠ j ∧
      sessionEmits (AIService.continueWriting s).1
        (AIService.continueWriting s).2 = true := by
  have hc : AIService.cancel s =
      { s with current := none, aborted := j :: s.aborted } := by
    simp [AIService.cancel, hcur]
  refine ⟨by simp [AIService.continueWriting, hc], ?_, ?_, ?_, ?_⟩
  · simp [AIService.continueWriting, hc, sessionEmits]
  · simp [AIService.continueWriting, hc]
  · simp only [AIService.continueWriting, hc]
    exact fun hEq => absurd hEq.symm (Nat.ne_of_lt hj)
  · simp only [AIService.continueWriting, hc, sessionEmits]
    have hnot : s.nextId ∉ j :: s.aborted := by
      intro hmem
      rcases List.mem_cons.mp hmem with hEq | hMem
      · exact Nat.ne_of_gt hj hEq
      · exact absurd (hab _ hMem) (lt_irrefl _)
    simpa using hnot

/-- Witness for C4 with session 0 active and next identifier 1. -/
theorem session_exclusivity_witness :
    ((⟨some 0, [], 1⟩ : AIServiceState).current = some 0) ∧
      (AIService.continueWriting ⟨some 0, [], 1⟩).1.aborted = [0] ∧
      sessionEmits (AIService.continueWriting ⟨some 0, [], 1⟩).1 0 =
        false ∧
      (AIService.continueWriting ⟨some 0, [], 1⟩).2 ≠ 0 ∧
      sessionEmits (AIService.continueWriting ⟨some 0, [], 1⟩).1
        (AIService.continueWriting ⟨some 0, [], 1⟩).2 = true := by
  have h := session_exclusivity ⟨some 0, [], 1⟩ 0 rfl (by decide)
    (by simp)
  exact ⟨rfl, h.1, h.2.1, h.2.2.2.1, h.2.2.2.2⟩

/-- Counterexample to claim C10 as stated: processing
`ACCEPT_SUGGESTION` while in `reviewingSuggestion` changes `content`
(from `"a"` to `"ab"`), and `reviewingSuggestion` is neither `idle` nor
`error`, so `content` does not change only while in `idle` or `error`. -/
theorem content_changes_in_reviewing :
    (step .reviewingSuggestion ⟨"a", "a", "b", none, false⟩
          .ACCEPT_SUGGESTION).2.content = "ab" ∧
      ("ab" : String) ≠ "a" ∧
      MState.reviewingSuggestion ≠ MState.idle ∧
      MState.reviewingSuggestion ≠ MState.error := by
  decide

/-- Claim C10 (amended): any event with no handler in the current state
leaves state and context unchanged; in particular `UPDATE_CONTENT` in
`generating` or `reviewingSuggestion` is ignored; and `content` can only
change while the machine is in `idle`, `error`, or — via the
accept/reject actions — `reviewingSuggestion`; it never changes while
`generating`. -/
theorem unhandled_frame (s : MState) (ctx : EditorContext)
    (e : EditorEvent) (t : String) :
    (handled s e = false → step s ctx e = (s, ctx)) ∧
      step .generating ctx (.UPDATE_CONTENT t) = (.generating, ctx) ∧
      step .reviewingSuggestion ctx (.UPDATE_CONTENT t) =
        (.reviewingSuggestion, ctx) ∧
      (step .generating ctx e).2.content = ctx.content ∧
      ((step s ctx e).2.content ≠ ctx.content →
        s = .idle ∨ s = .error ∨ s = .reviewingSuggestion) := by
  refine ⟨?_, rfl, rfl, ?_, ?_⟩ <;>
    cases s <;> cases e <;> simp [handled, step]

/-- Witness for C10: an unhandled event (`RETRY` while `generating`) is
inert, and the content change on accepting from `reviewingSuggestion`
lands in the amended disjunction. -/
theorem unhandled_frame_witness :
    handled .generating .RETRY = false ∧
      step .generating ⟨"a", "a", "x", none, false⟩ .RETRY =
        (.generating, ⟨"a", "a", "x", none, false⟩) ∧
      (MState.reviewingSuggestion = MState.idle ∨
        MState.reviewingSuggestion = MState.error ∨
        MState.reviewingSuggestion = MState.reviewingSuggestion) :=
  ⟨by decide,
   (unhandled_frame .generating ⟨"a", "a", "x", none, false⟩ .RETRY
      "t").1 (by decide),
   (unhandled_frame .reviewingSuggestion ⟨"a", "a", "b", none, false⟩
      .ACCEPT_SUGGESTION "t").2.2.2.2 (by decide)⟩
